import Mathlib

/-!
Verification development for the NeurIPS paper scrapper (`scrapper.py`).

The harvesting pipeline is embedded shallowly: every `requests.get` call is
modelled by a `Fetch` value supplied by an environment, the parsed HTML of a
paper detail page by a `DetailPage` record, the process-wide globals
(`downloaded_papers`, `total_papers`, `is_scraping`, `log_queue`, the metadata
CSV file and the downloaded PDF files) by a `ScrapeState` record, and a Python
exception that escapes a function by an `Option PyExn` component of the result.
Only `requests.RequestException` is caught by the source's `try/except` blocks;
an OS-level error while writing a file is represented by `PyExn.ioError` and
propagates.  The worker pool of `scrape_papers` is modelled by the serialized
interleaving in which every submitted unit of work runs to completion and the
first exception surfaces in the `as_completed` loop, after which the remaining
years are not processed (faithful to `ThreadPoolExecutor` shutdown semantics).
-/

namespace Scrapper

/-- The constant `OUTPUT_DIR` of the source. -/
def OUTPUT_DIR : String := "D:/scraped-pdfs"

/-- The constant `METADATA_FILE` of the source (`os.path.join(OUTPUT_DIR, "metadata.csv")`). -/
def METADATA_FILE : String := OUTPUT_DIR ++ "/metadata.csv"

/-- The constant `THREAD_COUNT` of the source. -/
def THREAD_COUNT : Nat := 5

/-- Result of one `requests.get` call: a response carrying an HTTP status code and an
already-parsed body, or a network-level `requests.RequestException` with a message.
`response.raise_for_status()` raises (a `RequestException`) exactly when
`400 ≤ status`. -/
inductive Fetch (α : Type) where
  | ok (status : Nat) (body : α)
  | netError (msg : String)
deriving Repr, DecidableEq

/-- The parsed HTML of one paper detail page, restricted to the selectors the source
uses: `select_one("h4")` (the title text, when an `h4` exists), `select("h4 + p")`
(the anchor texts of the first paragraph following an `h4`, when such a paragraph
exists), and `select_one("a[href$='.pdf']")` (the PDF link's `href`, when present). -/
structure DetailPage where
  h4 : Option String
  h4p : Option (List String)
  pdfHref : Option String
deriving Repr, DecidableEq

/-- The metadata dictionary built by `fetch_metadata`: the authors list is already
joined with `", "` at construction (`", ".join(authors)`). -/
structure Metadata where
  title : String
  authors : String
  url : String
deriving Repr, DecidableEq

/-- One CSV row as written by `csv.DictWriter.writerow` with fieldnames
`["title", "authors", "url", "pdf_path"]`. -/
structure RowData where
  title : String
  authors : String
  url : String
  pdf_path : String
deriving Repr, DecidableEq

/-- One line of the metadata CSV file: the header line or a data row. -/
inductive FileLine where
  | header
  | row (r : RowData)
deriving Repr, DecidableEq

/-- Outcome of streaming the PDF body to disk: either every chunk is written, or an
OS-level error occurs after `k` chunks have been written (leaving a partial file). -/
inductive WriteOutcome where
  | ok
  | ioErrorAfter (k : Nat)
deriving Repr, DecidableEq

/-- A Python exception escaping a function.  `requests.RequestException` never escapes
`download_pdf` (its `except` clause catches it); an `OSError` from file writing does. -/
inductive PyExn where
  | ioError
deriving Repr, DecidableEq

/-- The process-wide mutable state of `scrapper.py`: the global counters, the
`is_scraping` flag, the thread-safe `log_queue` (as the list of lines enqueued and
not yet drained), the lines emitted through the `logging` module, the metadata CSV
file (`none` = the file does not exist; `some l` = it exists with lines `l`), and
the PDF files written under `OUTPUT_DIR` (path with the list of chunks written). -/
structure ScrapeState where
  downloaded_papers : Nat
  total_papers : Nat
  is_scraping : Bool
  log_queue : List String
  syslog : List String
  metadataFile : Option (List FileLine)
  pdfFiles : List (String × List String)
deriving Repr, DecidableEq

/-- The external world: for each year the listing response (body = the `href`
attributes of anchors matching `a[href*='-Abstract.html']`, in page order), for
each paper URL the detail-page response, for each PDF URL the asset response
(body = the chunk sequence of `iter_content`), and for each PDF path the outcome
of writing it to storage. -/
structure Env where
  listing : Int → Fetch (List String)
  detail : String → Fetch DetailPage
  pdf : String → Fetch (List String)
  write : String → WriteOutcome

/-- Python's `str.strip()`: drop whitespace from both ends of the string
(structural recursion on the character list, so concrete instances compute). -/
def pyStrip (s : String) : String :=
  String.mk
    (((s.toList.dropWhile Char.isWhitespace).reverse.dropWhile
        Char.isWhitespace).reverse)

/-- Python's `str.split(sep)` for a one-character separator, by structural
recursion on the character list. -/
def splitChar (sep : Char) : List Char → List (List Char)
  | [] => [[]]
  | c :: cs =>
      match splitChar sep cs with
      | [] => [[]]
      | g :: gs => if c = sep then [] :: g :: gs else (c :: g) :: gs

/-- The last element of a split (Python's `[-1]` indexing). -/
def lastOfSplit (d : List Char) : List (List Char) → List Char
  | [] => d
  | [g] => g
  | _ :: g :: gs => lastOfSplit d (g :: gs)

/-- Function `get_paper_links(year)`: on success, maps every matching `href` to an absolute
URL; on a `RequestException` (network failure or `raise_for_status` on a bad
status), logs an error and returns the empty list.  A page with no matching
anchors (e.g. malformed HTML) yields an empty body and hence an empty list.
Returns the links together with the lines written through `logging`. -/
def get_paper_links (year : Int) (resp : Fetch (List String)) :
    List String × List String :=
  match resp with
  | Fetch.netError e =>
      ([], ["❌ Error fetching paper links: " ++ e])
  | Fetch.ok status hrefs =>
      if 400 ≤ status then
        ([], ["❌ Error fetching paper links: status " ++ toString status])
      else
        (hrefs.map (fun h => "https://papers.nips.cc" ++ h),
         ["Found " ++ toString hrefs.length ++ " papers for " ++ toString year])

/-- Function `fetch_metadata(paper_url)`: fetches the detail page; on a `RequestException`
logs the reason and returns `None`.  Otherwise the title is the stripped `h4`
text or the sentinel `"No Title"`, and the authors are the stripped anchor texts
of the first `h4 + p` paragraph (empty when there is none), joined with `", "`.
Returns the metadata (or `none`) together with the `logging` lines. -/
def fetch_metadata (paper_url : String) (resp : Fetch DetailPage) :
    Option Metadata × List String :=
  match resp with
  | Fetch.netError e =>
      (none, ["❌ Error fetching metadata from " ++ paper_url ++ ": " ++ e])
  | Fetch.ok status page =>
      if 400 ≤ status then
        (none, ["❌ Error fetching metadata from " ++ paper_url ++ ": status "
                 ++ toString status])
      else
        let title := match page.h4 with
          | some t => pyStrip t
          | none => "No Title"
        let authors := (page.h4p.getD []).map pyStrip
        (some { title := title,
                authors := String.intercalate ", " authors,
                url := paper_url }, [])

/-- The absolute PDF URL built by `download_pdf` from the detail page's `href`. -/
def pdfUrlOf (href : String) : String := "https://papers.nips.cc" ++ href

/-- The file name `pdf_name = pdf_url.split("/")[-1]`. -/
def pdfNameOf (href : String) : String :=
  String.mk (lastOfSplit [] (splitChar '/' (pdfUrlOf href).toList))

/-- The path `pdf_path = os.path.join(OUTPUT_DIR, pdf_name)`. -/
def pdfPathOf (href : String) : String := OUTPUT_DIR ++ "/" ++ pdfNameOf href

/-- Function `download_pdf(paper_url, metadata)`: re-fetches the detail page, locates the
first anchor whose `href` ends in `.pdf`, streams the asset response's body (its
HTTP status is never checked — there is no `raise_for_status` on it) to
`pdf_path` in chunks, appends the metadata row to `METADATA_FILE` (writing the
header first iff the file cursor is at offset zero, i.e. the file is empty),
increments `downloaded_papers` and enqueues progress lines.  The `except` clause
catches only `requests.RequestException`; an OS error while writing the file
escapes as `some PyExn.ioError` with the partial file left on disk. -/
def download_pdf (paper_url : String) (metadata : Metadata)
    (detailResp : Fetch DetailPage)
    (pdfFetch : String → Fetch (List String))
    (write : String → WriteOutcome)
    (s : ScrapeState) : ScrapeState × Option PyExn :=
  match detailResp with
  | Fetch.netError e =>
      ({ s with log_queue :=
           s.log_queue ++ ["❌ Error downloading " ++ paper_url ++ ": " ++ e] }, none)
  | Fetch.ok status page =>
      if 400 ≤ status then
        ({ s with log_queue :=
             s.log_queue ++ ["❌ Error downloading " ++ paper_url ++ ": status "
                              ++ toString status] }, none)
      else
        match page.pdfHref with
        | none =>
            ({ s with log_queue :=
                 s.log_queue ++ ["⚠️ No PDF found for: " ++ paper_url] }, none)
        | some href =>
            let s1 := { s with log_queue :=
              s.log_queue ++ ["📥 Downloading: " ++ pdfNameOf href] }
            match pdfFetch (pdfUrlOf href) with
            | Fetch.netError e =>
                ({ s1 with log_queue :=
                     s1.log_queue ++ ["❌ Error downloading " ++ paper_url ++ ": "
                                       ++ e] }, none)
            | Fetch.ok _pdfStatus chunks =>
                match write (pdfPathOf href) with
                | WriteOutcome.ioErrorAfter k =>
                    ({ s1 with pdfFiles :=
                         s1.pdfFiles ++ [(pdfPathOf href, chunks.take k)] },
                     some PyExn.ioError)
                | WriteOutcome.ok =>
                    let s2 := { s1 with
                                pdfFiles := s1.pdfFiles ++ [(pdfPathOf href, chunks)],
                                log_queue := s1.log_queue ++ ["✅ Saved: " ++ pdfPathOf href] }
                    let rowd : RowData :=
                      { title := metadata.title, authors := metadata.authors,
                        url := metadata.url, pdf_path := pdfPathOf href }
                    let oldFile := s2.metadataFile.getD []
                    let newFile := if oldFile = [] then
                        [FileLine.header, FileLine.row rowd]
                      else oldFile ++ [FileLine.row rowd]
                    let s3 := { s2 with
                                metadataFile := some newFile,
                                downloaded_papers := s2.downloaded_papers + 1 }
                    ({ s3 with log_queue :=
                         s3.log_queue ++ ["Downloaded " ++ toString s3.downloaded_papers
                           ++ "/" ++ toString s3.total_papers ++ " papers"] }, none)

/-- Outcome of `start_scraping`: the year range was rejected with a user-facing
error, or the scraping thread was started. -/
inductive StartOutcome where
  | invalidRange
  | started
deriving Repr, DecidableEq

/-- Function `start_scraping()`: resets `downloaded_papers`, validates the year range
(`start_year < 1987 or end_year > 2025 or start_year > end_year` is rejected
before any network call), creates `METADATA_FILE` with a header iff it does not
exist, resets `total_papers`, sets `is_scraping` and spawns `scrape_papers`.
The `log_queue` is not touched (only the UI text area is cleared). -/
def start_scraping (start_year end_year : Int) (s : ScrapeState) :
    StartOutcome × ScrapeState :=
  let s0 := { s with downloaded_papers := 0 }
  if start_year < 1987 ∨ 2025 < end_year ∨ end_year < start_year then
    (StartOutcome.invalidRange, s0)
  else
    let s1 := match s0.metadataFile with
      | none => { s0 with metadataFile := some [FileLine.header] }
      | some _ => s0
    (StartOutcome.started, { s1 with total_papers := 0, is_scraping := true })

/-- One unit of work of the fan-out loop of `scrape_papers`: `fetch_metadata`
followed, when it succeeded, by the submitted `download_pdf`.  The accumulated
exception keeps the first one raised (the one `future.result()` re-raises). -/
def process_paper (env : Env) (url : String)
    (acc : ScrapeState × Option PyExn) : ScrapeState × Option PyExn :=
  match fetch_metadata url (env.detail url) with
  | (none, logs) => ({ acc.1 with syslog := acc.1.syslog ++ logs }, acc.2)
  | (some md, logs) =>
      let d := download_pdf url md (env.detail url) env.pdf env.write
        { acc.1 with syslog := acc.1.syslog ++ logs }
      (d.1, match acc.2 with
            | some e0 => some e0
            | none => d.2)

/-- One iteration of the year loop of `scrape_papers`: discover the links,
add their count to `total_papers`, then run every unit of work (the pool
executes every submitted future even when an earlier one raised; the first
exception surfaces afterwards in the `as_completed` loop). -/
def run_year (env : Env) (year : Int) (s : ScrapeState) :
    ScrapeState × Option PyExn :=
  let g := get_paper_links year (env.listing year)
  let s1 := { s with
              syslog := s.syslog ++ g.2,
              total_papers := s.total_papers + g.1.length }
  g.1.foldl (fun acc url => process_paper env url acc) (s1, none)

/-- The years `range(start_year, end_year + 1)`. -/
def yearList (start_year end_year : Int) : List Int :=
  (List.range (end_year + 1 - start_year).toNat).map (fun i => start_year + i)

/-- The year loop of `scrape_papers`: on the first year whose `as_completed`
loop re-raises an exception, the thread dies (remaining years are not
processed, `is_scraping` is never reset); on normal completion `is_scraping`
is cleared. -/
def scrape_go (env : Env) : List Int → ScrapeState → ScrapeState × Option PyExn
  | [], s => ({ s with is_scraping := false }, none)
  | y :: ys, s =>
      match run_year env y s with
      | (s1, none) => scrape_go env ys s1
      | (s1, some e) => (s1, some e)

/-- Function `scrape_papers(start_year, end_year)`. -/
def scrape_papers (env : Env) (start_year end_year : Int) (s : ScrapeState) :
    ScrapeState × Option PyExn :=
  scrape_go env (yearList start_year end_year) s

/-- One full batch run: the button handler `start_scraping` followed, when the
range is valid, by the spawned `scrape_papers` thread run to completion. -/
def run_batch (env : Env) (start_year end_year : Int) (s : ScrapeState) :
    StartOutcome × ScrapeState × Option PyExn :=
  match start_scraping start_year end_year s with
  | (StartOutcome.invalidRange, s1) => (StartOutcome.invalidRange, s1, none)
  | (StartOutcome.started, s1) =>
      let (s2, e) := scrape_papers env start_year end_year s1
      (StartOutcome.started, s2, e)

/-! ### Concrete fixtures used by the witness theorems -/

/-- A fresh process state: no file, nothing downloaded, no queued lines. -/
def sInit : ScrapeState :=
  { downloaded_papers := 0, total_papers := 0, is_scraping := false,
    log_queue := [], syslog := [], metadataFile := none, pdfFiles := [] }

/-- A process state left over by an earlier run: a non-empty `log_queue`. -/
def sDirty : ScrapeState :=
  { downloaded_papers := 7, total_papers := 9, is_scraping := false,
    log_queue := ["left-over line"], syslog := [],
    metadataFile := some [FileLine.header], pdfFiles := [] }

/-- A metadata value as `fetch_metadata` would produce it. -/
def mdW : Metadata := { title := "T", authors := "A, B", url := "u" }

/-- A complete detail page: title, one author paragraph, a PDF link. -/
def pageW : DetailPage :=
  { h4 := some " T ", h4p := some ["A", "B"], pdfHref := some "/pdf/a1.pdf" }

/-- A detail page with no anchor ending in `.pdf`. -/
def pageNoPdf : DetailPage :=
  { h4 := some "T", h4p := some ["A"], pdfHref := none }

/-- A detail page with no `h4` element. -/
def pageNoTitle : DetailPage :=
  { h4 := none, h4p := some ["A"], pdfHref := none }

/-- A detail page with a title but no paragraph following the `h4`. -/
def pageNoAuthors : DetailPage :=
  { h4 := some "T", h4p := none, pdfHref := none }

/-- An environment with one paper in the year 2000 and none elsewhere,
everything succeeding. -/
def envW : Env :=
  { listing := fun y => if y = 2000 then Fetch.ok 200 ["/p1-Abstract.html"]
                        else Fetch.ok 200 [],
    detail := fun _ => Fetch.ok 200 pageW,
    pdf := fun _ => Fetch.ok 200 ["c1", "c2"],
    write := fun _ => WriteOutcome.ok }

/-- An environment with one paper per year whose storage writes all fail with
an OS-level error before the first chunk. -/
def envFailWrite : Env :=
  { listing := fun y => if y = 2000 then Fetch.ok 200 ["/p1-Abstract.html"]
                        else Fetch.ok 200 ["/p2-Abstract.html"],
    detail := fun _ => Fetch.ok 200 pageW,
    pdf := fun _ => Fetch.ok 200 ["c1"],
    write := fun _ => WriteOutcome.ioErrorAfter 0 }

/-! ### The lines a run appends to the metadata file

These functions depend only on the environment, never on the process state:
they are what makes the sink append-only and re-runs reproducible (claim C8). -/

/-- The metadata-file lines one `download_pdf` call appends when the file is
already non-empty: one row on the success path, nothing on any failure path. -/
def unit_rows (metadata : Metadata) (detailResp : Fetch DetailPage)
    (pdfFetch : String → Fetch (List String))
    (write : String → WriteOutcome) : List FileLine :=
  match detailResp with
  | Fetch.netError _ => []
  | Fetch.ok status page =>
      if 400 ≤ status then []
      else
        match page.pdfHref with
        | none => []
        | some href =>
            match pdfFetch (pdfUrlOf href) with
            | Fetch.netError _ => []
            | Fetch.ok _ _ =>
                match write (pdfPathOf href) with
                | WriteOutcome.ioErrorAfter _ => []
                | WriteOutcome.ok =>
                    [FileLine.row
                      { title := metadata.title, authors := metadata.authors,
                        url := metadata.url, pdf_path := pdfPathOf href }]

/-- The exception escaping one `download_pdf` call. -/
def unit_exn (detailResp : Fetch DetailPage)
    (pdfFetch : String → Fetch (List String))
    (write : String → WriteOutcome) : Option PyExn :=
  match detailResp with
  | Fetch.netError _ => none
  | Fetch.ok status page =>
      if 400 ≤ status then none
      else
        match page.pdfHref with
        | none => none
        | some href =>
            match pdfFetch (pdfUrlOf href) with
            | Fetch.netError _ => none
            | Fetch.ok _ _ =>
                match write (pdfPathOf href) with
                | WriteOutcome.ioErrorAfter _ => some PyExn.ioError
                | WriteOutcome.ok => none

/-- The lines one unit of work (extract, then download) appends. -/
def paper_rows (env : Env) (url : String) : List FileLine :=
  match (fetch_metadata url (env.detail url)).1 with
  | none => []
  | some md => unit_rows md (env.detail url) env.pdf env.write

/-- The exception escaping one unit of work. -/
def paper_exn (env : Env) (url : String) : Option PyExn :=
  match (fetch_metadata url (env.detail url)).1 with
  | none => none
  | some _ => unit_exn (env.detail url) env.pdf env.write

/-- The lines a list of units appends. -/
def links_rows (env : Env) : List String → List FileLine
  | [] => []
  | u :: us => paper_rows env u ++ links_rows env us

/-- The first exception raised by a list of units. -/
def links_exn (env : Env) : List String → Option PyExn
  | [] => none
  | u :: us =>
      match paper_exn env u with
      | some e => some e
      | none => links_exn env us

/-- The lines one year of the batch appends. -/
def year_rows (env : Env) (year : Int) : List FileLine :=
  links_rows env (get_paper_links year (env.listing year)).1

/-- The exception a year's `as_completed` loop re-raises. -/
def year_exn (env : Env) (year : Int) : Option PyExn :=
  links_exn env (get_paper_links year (env.listing year)).1

/-- The lines the year loop appends; a year whose `as_completed` loop
re-raises stops the loop. -/
def years_rows (env : Env) : List Int → List FileLine
  | [] => []
  | y :: ys =>
      year_rows env y ++ (match year_exn env y with
        | some _ => []
        | none => years_rows env ys)

/-- Whether a metadata-file line is a data row (not the header). -/
def isRowLine : FileLine → Bool
  | FileLine.header => false
  | FileLine.row _ => true

/-- The number of data rows in the metadata file. -/
def fileRowCount (f : Option (List FileLine)) : Nat :=
  (f.getD []).countP isRowLine

/-! ### Claims -/

/-- One `download_pdf` call on a non-empty metadata file appends exactly
`unit_rows` and raises exactly `unit_exn` — neither depends on the state. -/
theorem download_pdf_appends (paper_url : String) (metadata : Metadata)
    (detailResp : Fetch DetailPage) (pdfFetch : String → Fetch (List String))
    (write : String → WriteOutcome) (s : ScrapeState) (l : List FileLine)
    (hfile : s.metadataFile = some l) (hne : l ≠ []) :
    (download_pdf paper_url metadata detailResp pdfFetch write s).1.metadataFile
      = some (l ++ unit_rows metadata detailResp pdfFetch write) ∧
    (download_pdf paper_url metadata detailResp pdfFetch write s).2
      = unit_exn detailResp pdfFetch write := by
  cases detailResp with
  | netError e => simp [download_pdf, unit_rows, unit_exn, hfile]
  | ok status page =>
    by_cases hst : 400 ≤ status
    · simp [download_pdf, unit_rows, unit_exn, hst, hfile]
    · cases hh : page.pdfHref with
      | none => simp [download_pdf, unit_rows, unit_exn, hst, hh, hfile]
      | some href =>
        cases hp : pdfFetch (pdfUrlOf href) with
        | netError e =>
            simp [download_pdf, unit_rows, unit_exn, hst, hh, hp, hfile]
        | ok ps chunks =>
          cases hw : write (pdfPathOf href) with
          | ioErrorAfter k =>
              simp [download_pdf, unit_rows, unit_exn, hst, hh, hp, hw, hfile]
          | ok =>
              simp [download_pdf, unit_rows, unit_exn, hst, hh, hp, hw, hfile,
                    hne]

/-- One unit of work on a non-empty metadata file appends exactly
`paper_rows`; the accumulated exception keeps the first one. -/
theorem process_paper_appends (env : Env) (url : String) (s : ScrapeState)
    (ex : Option PyExn) (l : List FileLine)
    (hfile : s.metadataFile = some l) (hne : l ≠ []) :
    (process_paper env url (s, ex)).1.metadataFile
      = some (l ++ paper_rows env url) ∧
    (process_paper env url (s, ex)).2
      = (match ex with | some e0 => some e0 | none => paper_exn env url) := by
  rcases hm : fetch_metadata url (env.detail url) with ⟨omd, logs⟩
  cases omd with
  | none =>
      cases ex <;> simp [process_paper, paper_rows, paper_exn, hm, hfile]
  | some md =>
      have hd := download_pdf_appends url md (env.detail url) env.pdf env.write
        { s with syslog := s.syslog ++ logs } l hfile hne
      simp only [process_paper, paper_rows, paper_exn, hm]
      exact ⟨hd.1, by rw [hd.2]⟩

/-- Folding the units of one year over a non-empty metadata file appends
exactly `links_rows` and yields the first exception. -/
theorem foldl_process_appends (env : Env) (links : List String) :
    ∀ (s : ScrapeState) (ex : Option PyExn) (l : List FileLine),
      s.metadataFile = some l → l ≠ [] →
      ((links.foldl (fun acc url => process_paper env url acc)
          (s, ex)).1.metadataFile = some (l ++ links_rows env links) ∧
       (links.foldl (fun acc url => process_paper env url acc) (s, ex)).2
        = (match ex with
           | some e0 => some e0
           | none => links_exn env links)) := by
  induction links with
  | nil =>
      intro s ex l hfile hne
      cases ex <;> simp [links_rows, links_exn, hfile]
  | cons u us ih =>
      intro s ex l hfile hne
      have hp := process_paper_appends env u s ex l hfile hne
      have hne2 : l ++ paper_rows env u ≠ [] := by
        intro hc
        exact hne (List.append_eq_nil.mp hc).1
      have hrest := ih (process_paper env u (s, ex)).1
        (process_paper env u (s, ex)).2 (l ++ paper_rows env u) hp.1 hne2
      simp only [List.foldl_cons]
      refine ⟨by rw [hrest.1, links_rows, List.append_assoc], ?_⟩
      rw [hrest.2, hp.2]
      cases ex with
      | some e0 => rfl
      | none => rw [links_exn]

/-- One year of the batch on a non-empty metadata file appends exactly
`year_rows` and re-raises exactly `year_exn`. -/
theorem run_year_appends (env : Env) (year : Int) (s : ScrapeState)
    (l : List FileLine) (hfile : s.metadataFile = some l) (hne : l ≠ []) :
    (run_year env year s).1.metadataFile = some (l ++ year_rows env year) ∧
    (run_year env year s).2 = year_exn env year := by
  have h := foldl_process_appends env (get_paper_links year (env.listing year)).1
    { s with
      syslog := s.syslog ++ (get_paper_links year (env.listing year)).2,
      total_papers :=
        s.total_papers + (get_paper_links year (env.listing year)).1.length }
    none l hfile hne
  exact ⟨h.1, h.2⟩

/-- The year loop on a non-empty metadata file appends exactly `years_rows`,
whatever the initial counters and queues are. -/
theorem scrape_go_appends (env : Env) (ys : List Int) :
    ∀ (s : ScrapeState) (l : List FileLine),
      s.metadataFile = some l → l ≠ [] →
      (scrape_go env ys s).1.metadataFile = some (l ++ years_rows env ys) := by
  induction ys with
  | nil => intro s l hfile hne; simp [scrape_go, years_rows, hfile]
  | cons y ys ih =>
      intro s l hfile hne
      have hy := run_year_appends env y s l hfile hne
      rcases hr : run_year env y s with ⟨s1, e1⟩
      rw [hr] at hy
      have hfile1 : s1.metadataFile = some (l ++ year_rows env y) := hy.1
      have hexn : e1 = year_exn env y := hy.2
      cases e1 with
      | none =>
          have hne1 : l ++ year_rows env y ≠ [] := by
            intro hc
            exact hne (List.append_eq_nil.mp hc).1
          have := ih s1 (l ++ year_rows env y) hfile1 hne1
          simp only [scrape_go, hr, this, years_rows, ← hexn,
                     List.append_assoc]
      | some e =>
          simp only [scrape_go, hr, years_rows, ← hexn, hfile1,
                     List.append_nil]

/-- A full batch run over a valid range starting from a non-existing metadata
file produces the file `header :: years_rows`. -/
theorem run_batch_file_fresh (env : Env) (a b : Int) (s : ScrapeState)
    (hv : 1987 ≤ a ∧ a ≤ b ∧ b ≤ 2025) (hf : s.metadataFile = none) :
    (run_batch env a b s).2.1.metadataFile
      = some ([FileLine.header] ++ years_rows env (yearList a b)) := by
  have hc : ¬ (a < 1987 ∨ 2025 < b ∨ b < a) := by omega
  simp only [run_batch, start_scraping, if_neg hc, hf, scrape_papers]
  exact scrape_go_appends env (yearList a b) _ [FileLine.header] rfl
    (by simp)

/-- A full batch run over a valid range starting from an existing non-empty
metadata file appends exactly `years_rows` after the existing lines. -/
theorem run_batch_file_existing (env : Env) (a b : Int) (s : ScrapeState)
    (l : List FileLine)
    (hv : 1987 ≤ a ∧ a ≤ b ∧ b ≤ 2025) (hf : s.metadataFile = some l)
    (hne : l ≠ []) :
    (run_batch env a b s).2.1.metadataFile
      = some (l ++ years_rows env (yearList a b)) := by
  have hc : ¬ (a < 1987 ∨ 2025 < b ∨ b < a) := by omega
  simp only [run_batch, start_scraping, if_neg hc, hf, scrape_papers]
  exact scrape_go_appends env (yearList a b) _ l rfl hne

/-- C8: the sink is append-only and not merge-aware.  Running the same valid
year range twice against the same environment, starting from a non-existing
sink file: the second run leaves every line of the first run's file in place
as an unchanged initial segment, appends exactly the same rows again
(`years_rows env (yearList a b)`, a function of the environment only — no
deduplication), and the data-row count of the file exactly doubles. -/
theorem C8_rerun_appends_and_doubles (env : Env) (a b : Int) (s0 : ScrapeState)
    (hv : 1987 ≤ a ∧ a ≤ b ∧ b ≤ 2025) (hf : s0.metadataFile = none) :
    (run_batch env a b ((run_batch env a b s0).2.1)).2.1.metadataFile
      = some ((((run_batch env a b s0).2.1).metadataFile.getD [])
               ++ years_rows env (yearList a b)) ∧
    fileRowCount
        ((run_batch env a b ((run_batch env a b s0).2.1)).2.1.metadataFile)
      = 2 * fileRowCount (((run_batch env a b s0).2.1).metadataFile) := by
  have h1 := run_batch_file_fresh env a b s0 hv hf
  have hne1 : ([FileLine.header] ++ years_rows env (yearList a b)) ≠ [] := by
    simp
  have h2 := run_batch_file_existing env a b ((run_batch env a b s0).2.1)
    ([FileLine.header] ++ years_rows env (yearList a b)) hv h1 hne1
  refine ⟨by rw [h2, h1]; simp, ?_⟩
  rw [h2, h1]
  simp [fileRowCount, List.countP_append, List.countP_cons, isRowLine]
  omega

/-- Witness for C8: one paper in the year 2000, everything succeeding; the
first run writes header plus one row, the second appends the same row again. -/
theorem C8_rerun_appends_and_doubles_witness :
    ((1987 : Int) ≤ 2000 ∧ (2000 : Int) ≤ 2000 ∧ (2000 : Int) ≤ 2025) ∧
    sInit.metadataFile = none ∧
    ((run_batch envW 2000 2000 ((run_batch envW 2000 2000 sInit).2.1)).2.1.metadataFile
       = some ((((run_batch envW 2000 2000 sInit).2.1).metadataFile.getD [])
                ++ years_rows envW (yearList 2000 2000)) ∧
     fileRowCount
         ((run_batch envW 2000 2000
             ((run_batch envW 2000 2000 sInit).2.1)).2.1.metadataFile)
       = 2 * fileRowCount (((run_batch envW 2000 2000 sInit).2.1).metadataFile)) :=
  ⟨by decide, rfl,
   C8_rerun_appends_and_doubles envW 2000 2000 sInit (by decide) rfl⟩

/-- C3: for a paper whose detail page contains no asset link, `download_pdf`
takes the `asset-missing` exit: the only effect is the warning line enqueued on
`log_queue` — no row is appended to the metadata file, `downloaded_papers` is
not advanced, no PDF file is written, and no exception escapes (the returned
exception component is `none`, so the year's `as_completed` loop and hence the
batch continue with the remaining papers). -/
theorem C3_asset_missing_frame (paper_url : String) (metadata : Metadata)
    (status : Nat) (page : DetailPage)
    (pdfFetch : String → Fetch (List String)) (write : String → WriteOutcome)
    (s : ScrapeState)
    (hstatus : status < 400) (hmissing : page.pdfHref = none) :
    download_pdf paper_url metadata (Fetch.ok status page) pdfFetch write s =
      ({ s with log_queue :=
           s.log_queue ++ ["⚠️ No PDF found for: " ++ paper_url] }, none) := by
  simp [download_pdf, hmissing, Nat.not_le.mpr hstatus]

/-- Witness for C3 at a concrete page with no PDF anchor. -/
theorem C3_asset_missing_frame_witness :
    (200 : Nat) < 400 ∧ pageNoPdf.pdfHref = none ∧
    download_pdf "u" mdW (Fetch.ok 200 pageNoPdf)
        (fun _ => Fetch.ok 200 []) (fun _ => WriteOutcome.ok) sInit =
      ({ sInit with log_queue :=
           sInit.log_queue ++ ["⚠️ No PDF found for: " ++ "u"] }, none) :=
  ⟨by decide, rfl,
   C3_asset_missing_frame "u" mdW 200 pageNoPdf
     (fun _ => Fetch.ok 200 []) (fun _ => WriteOutcome.ok) sInit
     (by decide) rfl⟩

/-- C4: for a year range violating `1987 ≤ start ≤ end ≤ 2025`, the batch is
rejected up front: `run_batch` reports `invalidRange` and its result is a fixed
expression that does not mention the environment `env` (so no network request
is issued) and leaves the state unchanged apart from the `downloaded_papers := 0`
assignment the source performs before validating — in particular no paper is
processed and the metadata file is untouched. -/
theorem C4_invalid_range_rejected (env : Env) (start_year end_year : Int)
    (s : ScrapeState)
    (h : ¬ (1987 ≤ start_year ∧ start_year ≤ end_year ∧ end_year ≤ 2025)) :
    run_batch env start_year end_year s =
      (StartOutcome.invalidRange, { s with downloaded_papers := 0 }, none) := by
  have hc : start_year < 1987 ∨ 2025 < end_year ∨ end_year < start_year := by
    omega
  simp [run_batch, start_scraping, if_pos hc]

/-- Witness for C4 at the spec's example `start = 2020, end = 2010`. -/
theorem C4_invalid_range_rejected_witness :
    ¬ (1987 ≤ (2020 : Int) ∧ (2020 : Int) ≤ 2010 ∧ (2010 : Int) ≤ 2025) ∧
    run_batch envW 2020 2010 sDirty =
      (StartOutcome.invalidRange, { sDirty with downloaded_papers := 0 }, none) :=
  ⟨by decide,
   C4_invalid_range_rejected envW 2020 2010 sDirty (by decide)⟩

/-- C5: a listing retrieval failure for a year is absorbed by
`get_paper_links`: a network-level `RequestException` and a failing HTTP status
(`raise_for_status`) both yield the empty link list together with a logged
error line, and `run_year` on such a year terminates normally (exception
component `none`, so the batch continues) having processed zero papers — its
only effect is the logged line. -/
theorem C5_listing_failure_absorbed (env : Env) (year : Int) (e : String)
    (status : Nat) (body : List String) (s : ScrapeState)
    (hstatus : 400 ≤ status)
    (henv : env.listing year = Fetch.netError e) :
    get_paper_links year (Fetch.netError e) =
      ([], ["❌ Error fetching paper links: " ++ e]) ∧
    get_paper_links year (Fetch.ok status body) =
      ([], ["❌ Error fetching paper links: status " ++ toString status]) ∧
    run_year env year s =
      ({ s with syslog :=
           s.syslog ++ ["❌ Error fetching paper links: " ++ e] }, none) := by
  refine ⟨rfl, by simp [get_paper_links, if_pos hstatus], ?_⟩
  simp [run_year, henv, get_paper_links]

/-- Witness for C5: a year whose listing request fails on the network. -/
theorem C5_listing_failure_absorbed_witness :
    (400 : Nat) ≤ 503 ∧
    (({ envW with listing := fun _ => Fetch.netError "boom" } : Env).listing 2000
       = Fetch.netError "boom") ∧
    run_year { envW with listing := fun _ => Fetch.netError "boom" } 2000 sInit =
      ({ sInit with syslog :=
           sInit.syslog ++ ["❌ Error fetching paper links: " ++ "boom"] }, none) :=
  ⟨by decide, rfl,
   (C5_listing_failure_absorbed
      { envW with listing := fun _ => Fetch.netError "boom" }
      2000 "boom" 503 [] sInit (by decide) rfl).2.2⟩

/-- C6: the extractor soft-fails on a missing title — when the page fetch
succeeds but has no `h4`, it still returns metadata, with the sentinel
`"No Title"` — yet hard-fails on a network failure: `fetch_metadata` returns
`None` (the paper is dropped; `scrape_papers` never submits a download for it
and there is no retry) and the reason is logged. -/
theorem C6_sentinel_title_hard_network (paper_url e : String) (status : Nat)
    (page : DetailPage)
    (hstatus : status < 400) (hno : page.h4 = none) :
    (fetch_metadata paper_url (Fetch.ok status page)).1 =
      some { title := "No Title",
             authors := String.intercalate ", " ((page.h4p.getD []).map pyStrip),
             url := paper_url } ∧
    fetch_metadata paper_url (Fetch.netError e) =
      (none, ["❌ Error fetching metadata from " ++ paper_url ++ ": " ++ e]) := by
  exact ⟨by simp [fetch_metadata, Nat.not_le.mpr hstatus, hno], rfl⟩

/-- Witness for C6 at a concrete page without a title. -/
theorem C6_sentinel_title_hard_network_witness :
    (200 : Nat) < 400 ∧ pageNoTitle.h4 = none ∧
    (fetch_metadata "u" (Fetch.ok 200 pageNoTitle)).1 =
      some { title := "No Title",
             authors := String.intercalate ", "
               ((pageNoTitle.h4p.getD []).map pyStrip),
             url := "u" } ∧
    fetch_metadata "u" (Fetch.netError "down") =
      (none, ["❌ Error fetching metadata from " ++ "u" ++ ": " ++ "down"]) := by
  have h := C6_sentinel_title_hard_network "u" "down" 200 pageNoTitle
    (by decide) rfl
  exact ⟨by decide, rfl, h.1, h.2⟩

/-- C7: for a detail page with a title but no paragraph following the `h4`,
`fetch_metadata` succeeds (it does not fail) and the authors field is the join
of the empty author list, i.e. the empty string. -/
theorem C7_no_author_paragraph (paper_url t : String) (status : Nat)
    (page : DetailPage)
    (hstatus : status < 400) (ht : page.h4 = some t) (hp : page.h4p = none) :
    (fetch_metadata paper_url (Fetch.ok status page)).1 =
      some { title := pyStrip t, authors := "", url := paper_url } := by
  simp [fetch_metadata, Nat.not_le.mpr hstatus, ht, hp]
  rfl

/-- Witness for C7 at a concrete page with a title and no author paragraph. -/
theorem C7_no_author_paragraph_witness :
    (200 : Nat) < 400 ∧ pageNoAuthors.h4 = some "T" ∧ pageNoAuthors.h4p = none ∧
    (fetch_metadata "u" (Fetch.ok 200 pageNoAuthors)).1 =
      some { title := pyStrip "T", authors := "", url := "u" } :=
  ⟨by decide, rfl, rfl,
   C7_no_author_paragraph "u" "T" 200 pageNoAuthors (by decide) rfl rfl⟩

/-- C9 (counterexample): the claim says the process-wide progress state is
reset to counters `0` and an *empty log-line queue* at the start of every batch
run.  The code never clears `log_queue` (only the UI text area is cleared): on
a state carrying a left-over queued line, the state right after
`start_scraping` — before any worker has run — still has a non-empty queue. -/
theorem C9_queue_not_cleared :
    (start_scraping 2000 2000 sDirty).2.log_queue = ["left-over line"] ∧
    decide ((start_scraping 2000 2000 sDirty).2.log_queue = []) = false := by
  exact ⟨by decide, by decide⟩

/-- C9 (amended): at the start of every batch run over a valid range, the
counters are reset — `downloaded_papers := 0` (before validation) and
`total_papers := 0` (before the worker thread is spawned) — but the log-line
queue is *not* cleared: it still holds exactly the lines left from before. -/
theorem C9_counters_reset_queue_kept (start_year end_year : Int)
    (s : ScrapeState)
    (hv : 1987 ≤ start_year ∧ start_year ≤ end_year ∧ end_year ≤ 2025) :
    (start_scraping start_year end_year s).1 = StartOutcome.started ∧
    (start_scraping start_year end_year s).2.downloaded_papers = 0 ∧
    (start_scraping start_year end_year s).2.total_papers = 0 ∧
    (start_scraping start_year end_year s).2.log_queue = s.log_queue := by
  have hc : ¬ (start_year < 1987 ∨ 2025 < end_year ∨ end_year < start_year) := by
    omega
  cases hf : s.metadataFile <;>
    simp [start_scraping, if_neg hc, hf]

/-- Witness for the amended C9 on the left-over state. -/
theorem C9_counters_reset_queue_kept_witness :
    (1987 ≤ (2000 : Int) ∧ (2000 : Int) ≤ 2000 ∧ (2000 : Int) ≤ 2025) ∧
    ((start_scraping 2000 2000 sDirty).1 = StartOutcome.started ∧
     (start_scraping 2000 2000 sDirty).2.downloaded_papers = 0 ∧
     (start_scraping 2000 2000 sDirty).2.total_papers = 0 ∧
     (start_scraping 2000 2000 sDirty).2.log_queue = sDirty.log_queue) :=
  ⟨by decide, C9_counters_reset_queue_kept 2000 2000 sDirty (by decide)⟩

/-- C10: `download_pdf` never checks the HTTP status of the asset response
(there is no `raise_for_status` after `requests.get(pdf_url, stream=True)`).
The hypothesis places no constraint on `pdfStatus`, and the conclusion does not
mention it: for *every* status — e.g. a 404 whose body is an error page — the
body is streamed to storage, a metadata row is appended to the sink (with the
header first iff the file was empty), `downloaded_papers` is advanced, and no
exception escapes, exactly as for a successful download. -/
theorem C10_asset_status_never_checked (paper_url : String) (metadata : Metadata)
    (status pdfStatus : Nat) (page : DetailPage) (href : String)
    (chunks : List String)
    (pdfFetch : String → Fetch (List String)) (write : String → WriteOutcome)
    (s : ScrapeState)
    (hstatus : status < 400) (hhref : page.pdfHref = some href)
    (hfetch : pdfFetch (pdfUrlOf href) = Fetch.ok pdfStatus chunks)
    (hwrite : write (pdfPathOf href) = WriteOutcome.ok) :
    (download_pdf paper_url metadata (Fetch.ok status page) pdfFetch write s).2
      = none ∧
    (download_pdf paper_url metadata (Fetch.ok status page) pdfFetch write s).1.downloaded_papers
      = s.downloaded_papers + 1 ∧
    (download_pdf paper_url metadata (Fetch.ok status page) pdfFetch write s).1.pdfFiles
      = s.pdfFiles ++ [(pdfPathOf href, chunks)] ∧
    (download_pdf paper_url metadata (Fetch.ok status page) pdfFetch write s).1.metadataFile
      = some (if s.metadataFile.getD [] = [] then
                [FileLine.header, FileLine.row
                   { title := metadata.title, authors := metadata.authors,
                     url := metadata.url, pdf_path := pdfPathOf href }]
              else s.metadataFile.getD [] ++
                [FileLine.row
                   { title := metadata.title, authors := metadata.authors,
                     url := metadata.url, pdf_path := pdfPathOf href }]) := by
  simp [download_pdf, Nat.not_le.mpr hstatus, hhref, hfetch, hwrite]

/-- Witness for C10 with a `404` asset response. -/
theorem C10_asset_status_never_checked_witness :
    (200 : Nat) < 400 ∧ pageW.pdfHref = some "/pdf/a1.pdf" ∧
    ((fun _ => Fetch.ok 404 ["<html>error</html>"]) (pdfUrlOf "/pdf/a1.pdf")
       = Fetch.ok 404 ["<html>error</html>"]) ∧
    ((fun _ => WriteOutcome.ok) (pdfPathOf "/pdf/a1.pdf") = WriteOutcome.ok) ∧
    ((download_pdf "u" mdW (Fetch.ok 200 pageW)
        (fun _ => Fetch.ok 404 ["<html>error</html>"])
        (fun _ => WriteOutcome.ok) sInit).2 = none ∧
     (download_pdf "u" mdW (Fetch.ok 200 pageW)
        (fun _ => Fetch.ok 404 ["<html>error</html>"])
        (fun _ => WriteOutcome.ok) sInit).1.downloaded_papers
       = sInit.downloaded_papers + 1 ∧
     (download_pdf "u" mdW (Fetch.ok 200 pageW)
        (fun _ => Fetch.ok 404 ["<html>error</html>"])
        (fun _ => WriteOutcome.ok) sInit).1.pdfFiles
       = sInit.pdfFiles ++ [(pdfPathOf "/pdf/a1.pdf", ["<html>error</html>"])] ∧
     (download_pdf "u" mdW (Fetch.ok 200 pageW)
        (fun _ => Fetch.ok 404 ["<html>error</html>"])
        (fun _ => WriteOutcome.ok) sInit).1.metadataFile
       = some (if sInit.metadataFile.getD [] = [] then
                 [FileLine.header, FileLine.row
                    { title := mdW.title, authors := mdW.authors,
                      url := mdW.url, pdf_path := pdfPathOf "/pdf/a1.pdf" }]
               else sInit.metadataFile.getD [] ++
                 [FileLine.row
                    { title := mdW.title, authors := mdW.authors,
                      url := mdW.url, pdf_path := pdfPathOf "/pdf/a1.pdf" }])) :=
  ⟨by decide, rfl, rfl, rfl,
   C10_asset_status_never_checked "u" mdW 200 404 pageW "/pdf/a1.pdf"
     ["<html>error</html>"]
     (fun _ => Fetch.ok 404 ["<html>error</html>"])
     (fun _ => WriteOutcome.ok) sInit (by decide) rfl rfl rfl⟩

/-- C2 (counterexample): an io-error while writing the asset is *not* a soft
failure.  In `envFailWrite` every year has a paper and every storage write raises an
OS error.  Running the batch over 2000–2001: the exception escapes the unit of
work (`some PyExn.ioError` — contradicting "no error above invalid-range ever
propagates out of the unit"), the batch thread dies after the year 2000 —
`total_papers` stays `1`, i.e. the year 2001 listing is never even fetched,
so the batch *is* terminated — and the error is never logged: the queue holds
only the "Downloading" line, no error line. -/
theorem C2_io_error_counterexample :
    (run_batch envFailWrite 2000 2001 sInit).2.2 = some PyExn.ioError ∧
    (run_batch envFailWrite 2000 2001 sInit).2.1.total_papers = 1 ∧
    (run_batch envFailWrite 2000 2001 sInit).2.1.is_scraping = true ∧
    (run_batch envFailWrite 2000 2001 sInit).2.1.log_queue
      = ["📥 Downloading: a1.pdf"] := by
  decide

/-- C2 (amended): the `except` clause of `download_pdf` catches only
`requests.RequestException`.  A network error while retrieving the asset is
soft — logged on the queue, no exception, the batch continues — but an OS-level
io-error while writing the asset to storage is not caught: it propagates out of
the unit of work, and a year whose `as_completed` loop re-raises it ends the
year loop (the remaining years are not processed and `is_scraping` is never
cleared). -/
theorem C2_io_error_propagates (paper_url e : String) (metadata : Metadata)
    (status pdfStatus k : Nat) (page : DetailPage) (href : String)
    (chunks : List String)
    (pdfFetch : String → Fetch (List String)) (write : String → WriteOutcome)
    (s : ScrapeState)
    (hstatus : status < 400) (hhref : page.pdfHref = some href)
    (hfetch : pdfFetch (pdfUrlOf href) = Fetch.ok pdfStatus chunks)
    (hwrite : write (pdfPathOf href) = WriteOutcome.ioErrorAfter k) :
    (download_pdf paper_url metadata (Fetch.ok status page) pdfFetch write s).2
      = some PyExn.ioError ∧
    (download_pdf paper_url metadata (Fetch.netError e) pdfFetch write s) =
      ({ s with log_queue :=
           s.log_queue ++ ["❌ Error downloading " ++ paper_url ++ ": " ++ e] },
       none) ∧
    (∀ (env : Env) (y : Int) (ys : List Int) (s1 s2 : ScrapeState) (ex : PyExn),
       run_year env y s1 = (s2, some ex) →
       scrape_go env (y :: ys) s1 = (s2, some ex)) := by
  refine ⟨?_, rfl, ?_⟩
  · simp [download_pdf, Nat.not_le.mpr hstatus, hhref, hfetch, hwrite]
  · intro env y ys s1 s2 ex h
    simp [scrape_go, h]

/-- Witness for the amended C2 on a concrete failing write. -/
theorem C2_io_error_propagates_witness :
    (200 : Nat) < 400 ∧ pageW.pdfHref = some "/pdf/a1.pdf" ∧
    (envFailWrite.pdf (pdfUrlOf "/pdf/a1.pdf") = Fetch.ok 200 ["c1"]) ∧
    (envFailWrite.write (pdfPathOf "/pdf/a1.pdf") = WriteOutcome.ioErrorAfter 0) ∧
    (download_pdf "u" mdW (Fetch.ok 200 pageW) envFailWrite.pdf envFailWrite.write sInit).2
      = some PyExn.ioError :=
  ⟨by decide, rfl, rfl, rfl,
   (C2_io_error_propagates "u" "boom" mdW 200 200 0 pageW "/pdf/a1.pdf" ["c1"]
      envFailWrite.pdf envFailWrite.write sInit (by decide) rfl rfl rfl).1⟩

end Scrapper
